import Mathlib

set_option linter.unusedVariables false

namespace CanLII

/-- Exceptions the embedded code can raise. -/
inductive PyErr where
  | typeError
  | attributeError
  | nameError
  | tooManyFailures
  | rotationLimit
  | clientError
  deriving DecidableEq

/-- State of IPRotator (rotate_ip.py lines 12-34).  rotation_limit = none models
Python None (the constructor default); Python truthiness makes both None and 0
behave as no limit. -/
structure RotatorState where
  rotation_limit : Option Nat
  rotation_count : Nat
  deriving DecidableEq

/-- Python truthiness of self.rotation_limit at rotate_ip.py line 75. -/
def rotationLimitTruthy (s : RotatorState) : Bool :=
  match s.rotation_limit with
  | none => false
  | some n => n != 0

/-- IPRotator.rotate_elastic_ip (rotate_ip.py lines 65-147).  `args` is the list
of positional arguments the caller supplies; the Python signature requires one
(eni_id), so an empty list raises TypeError before the body runs.  `awsOk`
abstracts whether the external AWS allocate/associate/release sequence succeeds;
on success rotation_count is incremented and the rotation info is returned, on
AWS failure the ClientError is re-raised and rotation_count is unchanged. -/
def rotate_elastic_ip (s : RotatorState) (args : List String) (awsOk : Bool) :
    Except PyErr (RotatorState × String) :=
  match args with
  | [] => .error .typeError
  | eni_id :: _ =>
    if rotationLimitTruthy s && decide (s.rotation_count ≥ s.rotation_limit.getD 0) then
      .error .rotationLimit
    else if awsOk then
      .ok ({ s with rotation_count := s.rotation_count + 1 }, eni_id)
    else
      .error .clientError

/-- IPRotateArgs (scraper.py lines 39-44). -/
structure IPRotateArgs where
  instance_id : String
  eni_id : String
  region : String := "us-east-2"
  rotation_limit : Nat := 3
  deriving DecidableEq

/-- Mutable state of BrowserManager (scraper.py lines 52-121) relevant to the
window / rotation logic. -/
structure BMState where
  max_retries : Nat
  window_size : Nat
  request_history : List Bool
  fail_rate : Nat
  total_requests : Nat
  total_failures : Nat
  total_successes : Nat
  is_rotating_ip : Bool
  ip_rotator : Option RotatorState
  deriving DecidableEq

/-- BrowserManager.__init__ (scraper.py lines 53-121).  Line 82 sets
self.fail_rate = 5 regardless of the fail_rate parameter, and lines 95-100
construct IPRotator without forwarding rotation_config.rotation_limit, so the
rotator keeps its default rotation_limit = None. -/
def mkBrowserManager (max_retries window_size fail_rate : Nat)
    (rotation_config : Option IPRotateArgs) : BMState where
  max_retries := max_retries
  window_size := window_size
  request_history := []
  fail_rate := 5
  total_requests := 0
  total_failures := 0
  total_successes := 0
  is_rotating_ip := false
  ip_rotator := rotation_config.map fun _ => { rotation_limit := none, rotation_count := 0 }

/-- Python list slicing l[start:] for an integer start: a negative start counts
from the end of the list and is clamped to 0. -/
def pySliceFrom (l : List Bool) (start : Int) : List Bool :=
  if start < 0 then l.drop (((l.length : Int) + start).toNat) else l.drop start.toNat

/-- The value recent_failures computed at scraper.py lines 196-197 after
appending `success`: the slice request_history[len-1-window_size:] is scanned,
but the generator condition tests `not success` (the just-recorded flag),
ignoring the loop variable `fail`. -/
def recentFailuresAfter (st : BMState) (success : Bool) : Nat :=
  let history := st.request_history ++ [success]
  let window_start : Int := (history.length : Int) - 1 - (st.window_size : Int)
  ((pySliceFrom history window_start).filter fun _fail => !success).length

/-- Observable events of the embedded code: lock acquire/release (the
`with self.lock` block), the request_history.append, the rotation call, fetch
attempts, the post-success randomized delay, and backoff sleeps (the source
performs none, so no definition below ever emits sleepSecs). -/
inductive Ev where
  | acquire
  | release
  | recordHist (b : Bool)
  | rotateCall
  | attempt (i : Nat)
  | randomDelay
  | sleepSecs (n : Nat)
  deriving DecidableEq

structure UpdResult where
  st : BMState
  recent_failures : Nat
  triggered : Bool
  outcome : Option PyErr
  trace : List Ev
  deriving DecidableEq

/-- BrowserManager._update_request_history (scraper.py lines 183-224).  `rc`
abstracts the self.ip_rotator.rotate_elastic_ip() call at line 207: the code as
written passes no argument (see srcRotate below).  Branches: if recent_failures
is below self.fail_rate the method returns normally; otherwise, with a rotator
configured, the rotation call runs with _is_rotating_ip set; if it raises, that
exception propagates (line 208 and the resets never run, _is_rotating_ip stays
true); if it returns, the three counters are reset (the history is not) and the
unconditional raise at line 220 fires.  Without a rotator the raise fires
directly.  The `with self.lock` context manager releases the lock on every
path, including the raising ones. -/
def update_request_history (rc : RotatorState → Except PyErr RotatorState)
    (st : BMState) (success : Bool) : UpdResult :=
  let st1 : BMState :=
    { st with
      request_history := st.request_history ++ [success],
      total_requests := st.total_requests + 1,
      total_successes := st.total_successes + (if success then 1 else 0),
      total_failures := st.total_failures + (if success then 0 else 1) }
  let rf := recentFailuresAfter st success
  if rf ≥ st.fail_rate then
    match st.ip_rotator with
    | some rot =>
      match rc rot with
      | .error e =>
        { st := { st1 with is_rotating_ip := true },
          recent_failures := rf, triggered := true, outcome := some e,
          trace := [.acquire, .recordHist success, .rotateCall, .release] }
      | .ok rot2 =>
        { st := { st1 with
                    is_rotating_ip := false, ip_rotator := some rot2,
                    total_failures := 0, total_successes := 0, total_requests := 0 },
          recent_failures := rf, triggered := true, outcome := some .tooManyFailures,
          trace := [.acquire, .recordHist success, .rotateCall, .release] }
    | none =>
      { st := st1, recent_failures := rf, triggered := true,
        outcome := some .tooManyFailures,
        trace := [.acquire, .recordHist success, .release] }
  else
    { st := st1, recent_failures := rf, triggered := false, outcome := none,
      trace := [.acquire, .recordHist success, .release] }

/-- The rotation call exactly as BrowserManager makes it (scraper.py lines 207
and 269): rotate_elastic_ip() with an empty positional-argument list.  The awsOk
flag is irrelevant because the call raises TypeError before any AWS call; it is
fixed to true. -/
def srcRotate (rot : RotatorState) : Except PyErr RotatorState :=
  (rotate_elastic_ip rot [] true).map Prod.fst

/-- The update_request_history embedding instantiated with the rotation call
the source actually makes. -/
def update_impl (st : BMState) (success : Bool) : UpdResult :=
  update_request_history srcRotate st success

/-- A sequence of record calls; the history append happens before any raise, so
the post-call state is taken whether or not the call raised. -/
def applyRecords (st : BMState) (bs : List Bool) : BMState :=
  bs.foldl (fun s b => (update_impl s b).st) st

/-- Modelled from the spec (section 6, identity-rotation collaborator): a
rotation collaborator whose external rotate() call succeeds and increments the
rotation count.  Used to state the claims that suppose "the rotation
collaborator succeeds". -/
def specRotateOk : RotatorState → Except PyErr RotatorState :=
  fun s => .ok { s with rotation_count := s.rotation_count + 1 }

/-- Threshold state reached by recording four failures from a fresh manager
that has a rotation config. -/
def stThresh : BMState :=
  applyRecords (mkBrowserManager 3 10 5 (some { instance_id := "i", eni_id := "e" }))
    [false, false, false, false]

theorem update_history_eq (rc : RotatorState → Except PyErr RotatorState)
    (st : BMState) (b : Bool) :
    (update_request_history rc st b).st.request_history = st.request_history ++ [b] := by
  simp only [update_request_history]
  split
  · split
    · split <;> rfl
    · rfl
  · rfl

theorem update_trace_eq (rc : RotatorState → Except PyErr RotatorState)
    (st : BMState) (b : Bool) :
    (update_request_history rc st b).trace
        = [.acquire, .recordHist b, .rotateCall, .release] ∨
    (update_request_history rc st b).trace
        = [.acquire, .recordHist b, .release] := by
  simp only [update_request_history]
  split
  · split
    · split
      · exact Or.inl rfl
      · exact Or.inl rfl
    · exact Or.inr rfl
  · exact Or.inr rfl

theorem recentFailuresAfter_true (st : BMState) : recentFailuresAfter st true = 0 := by
  have h : ∀ l : List Bool, (l.filter fun _fail => !true) = [] := by
    intro l
    induction l with
    | nil => rfl
    | cons a t ih => simp [List.filter_cons, ih]
  simp [recentFailuresAfter, h]

theorem update_true_outcome (rc : RotatorState → Except PyErr RotatorState)
    (st : BMState) (h : 0 < st.fail_rate) :
    (update_request_history rc st true).outcome = none ∧
    (update_request_history rc st true).trace = [.acquire, .recordHist true, .release] := by
  simp only [update_request_history, recentFailuresAfter_true]
  rw [if_neg (by omega)]
  exact ⟨rfl, rfl⟩

/-- C1: the claim says the rotation check computed after a record equals
(count of false entries in the current window contents ≥ the failureThreshold
supplied at construction).  The code instead compares
len(request_history[len-1-window_size:]) (when the new record is a failure,
else 0) against a hardcoded 5 (scraper.py line 82 ignores the fail_rate
parameter; line 197 tests `not success`, ignoring the loop variable `fail`).
Evaluated at the failing input: window_size=10, fail_rate parameter 5, records
[True,True,True,True,False]: only 1 of the 5 window entries is false, so the
claim says no rotation (1 < 5), but the code computes recent_failures = 5 and
triggers.  Conversely, with fail_rate parameter 1 and a single failed record
the claim says trigger (1 ≥ 1) but the code compares against the hardcoded 5
and does not. -/
theorem C1_failure_check_bug :
    (update_impl (applyRecords (mkBrowserManager 3 10 5 none) [true, true, true, true])
        false).triggered = true ∧
    (update_impl (applyRecords (mkBrowserManager 3 10 5 none) [true, true, true, true])
        false).st.request_history.count false = 1 ∧
    ¬ ((update_impl (applyRecords (mkBrowserManager 3 10 5 none) [true, true, true, true])
        false).st.request_history.count false ≥ (mkBrowserManager 3 10 5 none).fail_rate) ∧
    (mkBrowserManager 3 10 1 none).fail_rate ≠ 1 ∧
    (update_impl (mkBrowserManager 3 10 1 none) false).triggered = false := by
  decide

/-- C2 counterexample: after 11 record calls on a manager with window_size = 10
the stored history has 11 entries — the record operation never evicts, so the
length of the stored history is not ≤ windowSize. -/
theorem C2_history_unbounded_cex :
    (applyRecords (mkBrowserManager 3 10 5 none)
        [true, true, true, true, true, true, true, true, true, true, true]).request_history.length
      = 11 ∧
    ¬ ((applyRecords (mkBrowserManager 3 10 5 none)
        [true, true, true, true, true, true, true, true, true, true, true]).request_history.length
      ≤ (mkBrowserManager 3 10 5 none).window_size) := by
  decide

/-- C2 (amended): the record operation never evicts: after any sequence of
record calls the stored history has grown by exactly the number of calls; only
the slice request_history[len-1-window_size:] examined by the failure check is
bounded, by window_size + 1 entries. -/
theorem C2_history_growth :
    (∀ (st : BMState) (bs : List Bool),
      (applyRecords st bs).request_history.length
        = st.request_history.length + bs.length) ∧
    (∀ (h : List Bool) (w : Nat),
      (pySliceFrom h ((h.length : Int) - 1 - (w : Int))).length ≤ w + 1) := by
  constructor
  · intro st bs
    induction bs generalizing st with
    | nil => simp [applyRecords]
    | cons b t ih =>
      have hstep := update_history_eq srcRotate st b
      calc (applyRecords st (b :: t)).request_history.length
          = (applyRecords (update_impl st b).st t).request_history.length := rfl
        _ = (update_impl st b).st.request_history.length + t.length := ih _
        _ = st.request_history.length + (b :: t).length := by
            simp [update_impl, hstep]
            omega
  · intro h w
    simp only [pySliceFrom]
    split <;> simp <;> omega

/-- C3 counterexample: in a state where the failure threshold fires
(stThresh plus one more failed record) and the rotation collaborator succeeds
(specRotateOk: the rotation completes, rotation_count becomes 1), the check
still raises the too-many-failures exception — control does not return
normally, refuting "returns a non-error Rotated outcome ... never raises after
a successful rotation". -/
theorem C3_raise_after_rotation_cex :
    (update_request_history specRotateOk stThresh false).triggered = true ∧
    (update_request_history specRotateOk stThresh false).st.ip_rotator
      = some { rotation_limit := none, rotation_count := 1 } ∧
    (update_request_history specRotateOk stThresh false).outcome
      = some PyErr.tooManyFailures := by
  decide

/-- C3 (amended): when the failure threshold is reached,
_update_request_history always raises the too-many-failures exception — even
when a rotator is configured and the external rotation collaborator succeeds
(the rotation is performed and then the unconditional raise at scraper.py line
220 fires); the method returns normally exactly when the threshold is not
reached.  The crawl never continues past a threshold breach. -/
theorem C3_threshold_always_raises (rc : RotatorState → Except PyErr RotatorState)
    (st : BMState) (b : Bool)
    (hok : ∀ s, ∃ s2, rc s = Except.ok s2) :
    (st.fail_rate ≤ recentFailuresAfter st b →
      (update_request_history rc st b).outcome = some PyErr.tooManyFailures) ∧
    (recentFailuresAfter st b < st.fail_rate →
      (update_request_history rc st b).outcome = none) := by
  constructor
  · intro h
    simp only [update_request_history]
    rw [if_pos h]
    cases hrot : st.ip_rotator with
    | none => rfl
    | some rot =>
      obtain ⟨s2, hs2⟩ := hok rot
      dsimp only
      rw [hs2]
  · intro h
    simp only [update_request_history]
    rw [if_neg (by omega)]

theorem C3_threshold_always_raises_witness :
    stThresh.fail_rate ≤ recentFailuresAfter stThresh false ∧
    (update_request_history specRotateOk stThresh false).outcome
      = some PyErr.tooManyFailures :=
  ⟨by decide,
   (C3_threshold_always_raises specRotateOk stThresh false
      (fun s => ⟨_, rfl⟩)).1 (by decide)⟩

/-- C4 counterexample: rotation fires from stThresh on a fifth failed record
and the collaborator succeeds (rotation_count becomes 1); the counters are
reset to zero, but the post-state window contents are
[false, false, false, false, false], not the empty sequence. -/
theorem C4_window_not_cleared_cex :
    (update_request_history specRotateOk stThresh false).st.ip_rotator
      = some { rotation_limit := none, rotation_count := 1 } ∧
    (update_request_history specRotateOk stThresh false).st.total_failures = 0 ∧
    (update_request_history specRotateOk stThresh false).st.request_history
      = [false, false, false, false, false] ∧
    (update_request_history specRotateOk stThresh false).st.request_history ≠ [] := by
  decide

/-- C4 (amended): after a successful rotation the success/failure/total
counters are zero, but the outcome window (request_history) is not cleared: it
still holds every previously recorded entry plus the new one, so subsequent
failure counts do not start from an empty window. -/
theorem C4_reset_counters_not_window (rc : RotatorState → Except PyErr RotatorState)
    (st : BMState) (b : Bool) (rot rot2 : RotatorState)
    (h1 : st.ip_rotator = some rot) (h2 : rc rot = Except.ok rot2)
    (h3 : st.fail_rate ≤ recentFailuresAfter st b) :
    (update_request_history rc st b).st.total_failures = 0 ∧
    (update_request_history rc st b).st.total_successes = 0 ∧
    (update_request_history rc st b).st.total_requests = 0 ∧
    (update_request_history rc st b).st.ip_rotator = some rot2 ∧
    (update_request_history rc st b).st.request_history = st.request_history ++ [b] := by
  simp only [update_request_history]
  rw [if_pos h3, h1]
  dsimp only
  rw [h2]
  exact ⟨rfl, rfl, rfl, rfl, rfl⟩

theorem C4_reset_counters_not_window_witness :
    stThresh.ip_rotator = some { rotation_limit := none, rotation_count := 0 } ∧
    specRotateOk { rotation_limit := none, rotation_count := 0 }
      = Except.ok { rotation_limit := none, rotation_count := 1 } ∧
    stThresh.fail_rate ≤ recentFailuresAfter stThresh false ∧
    (update_request_history specRotateOk stThresh false).st.request_history
      = stThresh.request_history ++ [false] :=
  ⟨by decide, rfl, by decide,
   (C4_reset_counters_not_window specRotateOk stThresh false
      { rotation_limit := none, rotation_count := 0 }
      { rotation_limit := none, rotation_count := 1 }
      (by decide) rfl (by decide)).2.2.2.2⟩

/-- Environment for one requests_get attempt: either session.get raises
(network error / timeout), or it returns a response with a status code and a
flag for whether the body contains one of the rate-limit phrases at
scraper.py line 297. -/
inductive ReqAttempt where
  | netError
  | response (status : Nat) (rateLimitPhrase : Bool)
  deriving DecidableEq

/-- requests' raise_for_status raises for 4xx and 5xx status codes. -/
def raisesStatus (s : Nat) : Bool := decide (400 ≤ s ∧ s < 600)

/-- Errors an attempt of requests_get can produce. -/
inductive ReqErr where
  | netError
  | httpError (status : Nat)
  | ratePage
  | windowExn
  deriving DecidableEq

/-- Classification of one attempt body (scraper.py lines 291-299): session.get
may raise; then raise_for_status; then the error-indicator scan of the body;
none of them raising means the attempt succeeds. -/
def attemptError : ReqAttempt → Option ReqErr
  | .netError => some .netError
  | .response s p =>
    if raisesStatus s then some (.httpError s)
    else if p then some .ratePage
    else none

/-- Result of a fetcher call: the (success, payload, error) triple collapses to
success or failure-with-message; exn models an exception propagating out of the
fetcher. -/
inductive FetchRes where
  | success
  | failure (e : ReqErr)
  | exn (e : PyErr)
  deriving DecidableEq

structure FetchOut where
  res : FetchRes
  st : BMState
  trace : List Ev
  deriving DecidableEq

/-- The while-loop of BrowserManager.requests_get (scraper.py lines 287-321).
`i` is the attempt index (retries so far), `remaining` = max_retries - i,
`lastErr` the last caught error message (unbound before the first attempt).
On a successful attempt: the randomized delay, then record(True) — still
inside the try, so if record raised it would be caught and retried (it cannot
raise on success while fail_rate > 0, but the branch is embedded).  On a failed
attempt the exception is caught, logged, and the loop simply continues — there
is no backoff sleep and no early exit for rate-limited responses.  After the
loop: _log_failed_request reads error_message (NameError if no attempt ever
ran), then record(False), whose too-many-failures exception would propagate. -/
def requests_get_go (env : Nat → ReqAttempt) (st : BMState) (i : Nat) :
    Nat → Option ReqErr → FetchOut
  | 0, none => { res := .exn .nameError, st := st, trace := [] }
  | 0, some e =>
    let u := update_impl st false
    match u.outcome with
    | none => { res := .failure e, st := u.st, trace := u.trace }
    | some ex => { res := .exn ex, st := u.st, trace := u.trace }
  | r + 1, lastErr =>
    match attemptError (env i) with
    | none =>
      let u := update_impl st true
      match u.outcome with
      | none => { res := .success, st := u.st, trace := .attempt i :: .randomDelay :: u.trace }
      | some _ =>
        let rest := requests_get_go env u.st (i + 1) r (some .windowExn)
        { rest with trace := .attempt i :: .randomDelay :: u.trace ++ rest.trace }
    | some e =>
      let rest := requests_get_go env st (i + 1) r (some e)
      { rest with trace := .attempt i :: rest.trace }

def requests_get (env : Nat → ReqAttempt) (st : BMState) : FetchOut :=
  requests_get_go env st 0 st.max_retries none

/-- Environment for one selenium_get attempt: either driver.get plus the
element wait succeed, or a selenium exception is raised and the bare
requests.get probe at line 266 returns probeStatus. -/
inductive SelAttempt where
  | ok
  | err (probeStatus : Nat)
  deriving DecidableEq

/-- The while-loop of BrowserManager.selenium_get (scraper.py lines 244-274).
On success: delay, record(True), return; an exception from record(True) is NOT
caught here (the except clause lists only selenium exception types) and
propagates.  On a selenium error: retries += 1, then the probe requests.get;
if it returns 429 the code calls self.ip_rotator.rotate_elastic_ip() with no
argument and OUTSIDE the lock — AttributeError if no rotator is configured,
otherwise the TypeError from the missing eni_id argument propagates; if that
call somehow returned, the loop would continue.  After the loop: NameError if
no attempt ran, else record(False). -/
def selenium_get_go (env : Nat → SelAttempt) (st : BMState) (i : Nat) :
    Nat → Bool → FetchOut
  | 0, false => { res := .exn .nameError, st := st, trace := [] }
  | 0, true =>
    let u := update_impl st false
    match u.outcome with
    | none => { res := .failure .netError, st := u.st, trace := u.trace }
    | some ex => { res := .exn ex, st := u.st, trace := u.trace }
  | r + 1, lastErrSet =>
    match env i with
    | .ok =>
      let u := update_impl st true
      match u.outcome with
      | none => { res := .success, st := u.st, trace := .attempt i :: .randomDelay :: u.trace }
      | some ex => { res := .exn ex, st := u.st, trace := .attempt i :: .randomDelay :: u.trace }
    | .err ps =>
      if ps == 429 then
        match st.ip_rotator with
        | none => { res := .exn .attributeError, st := st, trace := [.attempt i] }
        | some rot =>
          match srcRotate rot with
          | .error e => { res := .exn e, st := st, trace := [.attempt i, .rotateCall] }
          | .ok rot2 =>
            let rest := selenium_get_go env { st with ip_rotator := some rot2 } (i + 1) r true
            { rest with trace := .attempt i :: .rotateCall :: rest.trace }
      else
        let rest := selenium_get_go env st (i + 1) r true
        { rest with trace := .attempt i :: rest.trace }

def selenium_get (env : Nat → SelAttempt) (st : BMState) : FetchOut :=
  selenium_get_go env st 0 st.max_retries false

def isAttemptEv : Ev → Bool
  | .attempt _ => true
  | _ => false

def isSleepEv : Ev → Bool
  | .sleepSecs _ => true
  | _ => false

/-- Number of fetch attempts recorded in a trace. -/
def attemptCount (tr : List Ev) : Nat := (tr.filter isAttemptEv).length

/-- Number of backoff sleeps recorded in a trace. -/
def sleepCount (tr : List Ev) : Nat := (tr.filter isSleepEv).length

/-- Whether the lock is held just before the event at index k. -/
def lockHeldBefore (tr : List Ev) (k : Nat) : Bool :=
  decide ((tr.take k).count Ev.release < (tr.take k).count Ev.acquire)

/-- Every rotateCall event in the trace happens while the lock is held. -/
def rotateUnderLockB (tr : List Ev) : Bool :=
  (List.range tr.length).all fun k =>
    !(tr.getD k Ev.release == Ev.rotateCall) || lockHeldBefore tr k

/-- Index of the first succeeding attempt (relative to start index i) among the
next r attempts of the environment. -/
def firstSuccessFrom (env : Nat → ReqAttempt) : Nat → Nat → Option Nat
  | _, 0 => none
  | i, r + 1 =>
    if (attemptError (env i)).isNone then some 0
    else (firstSuccessFrom env (i + 1) r).map (· + 1)

theorem srcRotate_eq (rot : RotatorState) :
    srcRotate rot = Except.error PyErr.typeError := rfl

theorem attemptCount_update (rc : RotatorState → Except PyErr RotatorState)
    (st : BMState) (b : Bool) :
    attemptCount (update_request_history rc st b).trace = 0 := by
  rcases update_trace_eq rc st b with h | h <;> rw [h] <;> cases b <;> rfl

theorem sleepCount_update (rc : RotatorState → Except PyErr RotatorState)
    (st : BMState) (b : Bool) :
    sleepCount (update_request_history rc st b).trace = 0 := by
  rcases update_trace_eq rc st b with h | h <;> rw [h] <;> cases b <;> rfl

theorem filter_attempt_update (rc : RotatorState → Except PyErr RotatorState)
    (st : BMState) (b : Bool) :
    (update_request_history rc st b).trace.filter isAttemptEv = [] := by
  rcases update_trace_eq rc st b with h | h <;> rw [h] <;> cases b <;> rfl

theorem filter_sleep_update (rc : RotatorState → Except PyErr RotatorState)
    (st : BMState) (b : Bool) :
    (update_request_history rc st b).trace.filter isSleepEv = [] := by
  rcases update_trace_eq rc st b with h | h <;> rw [h] <;> cases b <;> rfl

theorem recordHist_mem_update (rc : RotatorState → Except PyErr RotatorState)
    (st : BMState) (b x : Bool) :
    (Ev.recordHist x ∈ (update_request_history rc st b).trace) ↔ x = b := by
  rcases update_trace_eq rc st b with h | h <;> rw [h] <;> simp

theorem req_go_attempts (env : Nat → ReqAttempt) (r : Nat) :
    ∀ (i : Nat) (st : BMState) (le : Option ReqErr), 0 < st.fail_rate →
    attemptCount (requests_get_go env st i r le).trace
      = match firstSuccessFrom env i r with
        | some j => j + 1
        | none => r := by
  induction r with
  | zero =>
    intro i st le h
    cases le with
    | none => rfl
    | some e =>
      simp only [requests_get_go]
      cases hu : (update_impl st false).outcome <;>
        simp [hu, firstSuccessFrom, update_impl, attemptCount_update]
  | succ r ih =>
    intro i st le h
    cases henv : attemptError (env i) with
    | none =>
      have hu := update_true_outcome srcRotate st h
      simp only [requests_get_go, henv, update_impl, hu.1]
      rw [hu.2]
      have hfs : firstSuccessFrom env i (r + 1) = some 0 := by
        simp [firstSuccessFrom, henv]
      rw [hfs]
      rfl
    | some e =>
      simp only [requests_get_go, henv]
      have hrec := ih (i + 1) st (some e) h
      have hfs0 : firstSuccessFrom env i (r + 1)
          = (firstSuccessFrom env (i + 1) r).map (· + 1) := by
        simp [firstSuccessFrom, henv]
      rw [hfs0]
      cases hfs : firstSuccessFrom env (i + 1) r with
      | none =>
        rw [hfs] at hrec
        simp [attemptCount, List.filter_cons, isAttemptEv] at hrec ⊢
        omega
      | some j =>
        rw [hfs] at hrec
        simp [attemptCount, List.filter_cons, isAttemptEv] at hrec ⊢
        exact hrec

theorem req_go_sleeps (env : Nat → ReqAttempt) (r : Nat) :
    ∀ (i : Nat) (st : BMState) (le : Option ReqErr),
    sleepCount (requests_get_go env st i r le).trace = 0 := by
  induction r with
  | zero =>
    intro i st le
    cases le with
    | none => rfl
    | some e =>
      simp only [requests_get_go]
      cases hu : (update_impl st false).outcome <;>
        simp [hu, update_impl, sleepCount_update]
  | succ r ih =>
    intro i st le
    simp only [requests_get_go]
    have h1 := sleepCount_update srcRotate st true
    cases henv : attemptError (env i) with
    | none =>
      cases hu : (update_impl st true).outcome with
      | none =>
        simp only [hu]
        simp [sleepCount, update_impl, List.filter_cons, isSleepEv] at h1 ⊢
        exact h1
      | some ex =>
        simp only [hu]
        have h2 := ih (i + 1) (update_impl st true).st (some ReqErr.windowExn)
        simp [sleepCount, update_impl, List.filter_cons, List.filter_append,
              isSleepEv] at h1 h2 ⊢
        exact ⟨h1, h2⟩
    | some e =>
      have h2 := ih (i + 1) st (some e)
      simp [sleepCount, List.filter_cons, isSleepEv] at h2 ⊢
      exact h2

theorem req_go_record_true (env : Nat → ReqAttempt) (r : Nat) :
    ∀ (i : Nat) (st : BMState) (le : Option ReqErr), 0 < st.fail_rate →
    (Ev.recordHist true ∈ (requests_get_go env st i r le).trace
      ↔ (firstSuccessFrom env i r).isSome = true) := by
  induction r with
  | zero =>
    intro i st le h
    cases le with
    | none => simp [requests_get_go, firstSuccessFrom]
    | some e =>
      simp only [requests_get_go]
      cases hu : (update_impl st false).outcome <;>
        simp [hu, firstSuccessFrom, update_impl, recordHist_mem_update]
  | succ r ih =>
    intro i st le h
    cases henv : attemptError (env i) with
    | none =>
      have hu := update_true_outcome srcRotate st h
      simp only [requests_get_go, henv, update_impl, hu.1]
      rw [hu.2]
      simp [firstSuccessFrom, henv]
    | some e =>
      simp only [requests_get_go, henv]
      simp [firstSuccessFrom, henv, ih (i + 1) st (some e) h]

theorem req_go_record_false (env : Nat → ReqAttempt) (r : Nat) :
    ∀ (i : Nat) (st : BMState) (le : Option ReqErr), 0 < st.fail_rate →
    (Ev.recordHist false ∈ (requests_get_go env st i r le).trace
      ↔ firstSuccessFrom env i r = none ∧ (0 < r ∨ le.isSome = true)) := by
  induction r with
  | zero =>
    intro i st le h
    cases le with
    | none => simp [requests_get_go, firstSuccessFrom]
    | some e =>
      simp only [requests_get_go]
      cases hu : (update_impl st false).outcome <;>
        simp [hu, firstSuccessFrom, update_impl, recordHist_mem_update]
  | succ r ih =>
    intro i st le h
    cases henv : attemptError (env i) with
    | none =>
      have hu := update_true_outcome srcRotate st h
      simp only [requests_get_go, henv, update_impl, hu.1]
      rw [hu.2]
      simp [firstSuccessFrom, henv]
    | some e =>
      simp only [requests_get_go, henv]
      simp [firstSuccessFrom, henv, ih (i + 1) st (some e) h]

theorem req_go_res (env : Nat → ReqAttempt) (r : Nat) :
    ∀ (i : Nat) (st : BMState) (le : Option ReqErr), 0 < st.fail_rate →
    ((requests_get_go env st i r le).res = FetchRes.success
      ↔ (firstSuccessFrom env i r).isSome = true) := by
  induction r with
  | zero =>
    intro i st le h
    cases le with
    | none => simp [requests_get_go, firstSuccessFrom]
    | some e =>
      simp only [requests_get_go]
      cases hu : (update_impl st false).outcome <;>
        simp [hu, firstSuccessFrom]
  | succ r ih =>
    intro i st le h
    cases henv : attemptError (env i) with
    | none =>
      have hu := update_true_outcome srcRotate st h
      simp only [requests_get_go, henv, update_impl, hu.1]
      simp [firstSuccessFrom, henv]
    | some e =>
      simp only [requests_get_go, henv]
      simp [firstSuccessFrom, henv, ih (i + 1) st (some e) h]

theorem firstSuccessFrom_lt (env : Nat → ReqAttempt) :
    ∀ (i r j : Nat), firstSuccessFrom env i r = some j → j + 1 ≤ r := by
  intro i r
  induction r generalizing i with
  | zero => intro j hj; simp [firstSuccessFrom] at hj
  | succ r ih =>
    intro j hj
    by_cases hs : (attemptError (env i)).isNone
    · simp [firstSuccessFrom, hs] at hj
      omega
    · simp [firstSuccessFrom, hs] at hj
      obtain ⟨k, hk, hkj⟩ := hj
      have := ih (i + 1) k hk
      omega

/-- Environment whose every attempt returns HTTP 429. -/
def cexEnv429 : Nat → ReqAttempt := fun _ => ReqAttempt.response 429 false

/-- Environment whose every attempt raises a network error. -/
def cexEnvNet : Nat → ReqAttempt := fun _ => ReqAttempt.netError

/-- Fresh manager with max_retries = 3, window_size = 10, no rotator. -/
def cexSt : BMState := mkBrowserManager 3 10 5 none

/-- C6 counterexample: every attempt of the environment returns HTTP 429 —
a rate-limited response per the claim's classification — yet requests_get with
max_retries = 3 performs three attempts (it does not stop after the first) and
finally returns the generic (False, None, error-message) failure carrying the
last HTTPError, not an immediate RateLimited report. -/
theorem C6_rate_limited_retries_cex :
    attemptCount (requests_get cexEnv429 cexSt).trace = 3 ∧
    (requests_get cexEnv429 cexSt).res = FetchRes.failure (ReqErr.httpError 429) := by
  decide

/-- C6 (amended): a rate-limited response does not short-circuit the retry
loop: requests_get treats it like any other caught failure — the number of
attempts depends only on the position of the first succeeding attempt (all of
max_retries attempts run when none succeeds) — and the call reports plain
success or the generic failure of the last error; it never reports a distinct
RateLimited outcome (selenium_get likewise does not: its 429-probe branch
attempts an inline IP rotation instead, see the C9/C10 theorems). -/
theorem C6_no_short_circuit (env : Nat → ReqAttempt) (st : BMState)
    (h : 0 < st.fail_rate) :
    attemptCount (requests_get env st).trace
      = (match firstSuccessFrom env 0 st.max_retries with
         | some j => j + 1
         | none => st.max_retries) ∧
    ((requests_get env st).res = FetchRes.success
      ↔ (firstSuccessFrom env 0 st.max_retries).isSome = true) :=
  ⟨req_go_attempts env st.max_retries 0 st none h,
   req_go_res env st.max_retries 0 st none h⟩

theorem C6_no_short_circuit_witness :
    0 < cexSt.fail_rate ∧
    attemptCount (requests_get cexEnv429 cexSt).trace = 3 := by
  have h := (C6_no_short_circuit cexEnv429 cexSt (by decide)).1
  exact ⟨by decide, by rw [h]; decide⟩

theorem sel_go_attempts_le (env : Nat → SelAttempt) (r : Nat) :
    ∀ (i : Nat) (st : BMState) (les : Bool),
    attemptCount (selenium_get_go env st i r les).trace ≤ r := by
  induction r with
  | zero =>
    intro i st les
    cases les with
    | false => exact Nat.le_refl 0
    | true =>
      simp only [selenium_get_go]
      cases hu : (update_impl st false).outcome <;>
        simp [hu, update_impl, attemptCount_update]
  | succ r ih =>
    intro i st les
    simp only [selenium_get_go]
    cases henv : env i with
    | ok =>
      cases hu : (update_impl st true).outcome <;>
        · simp only [hu]
          simp [attemptCount, update_impl, List.filter_cons, isAttemptEv,
                filter_attempt_update]
    | err ps =>
      by_cases hps : (ps == 429) = true
      · simp only [hps, if_true]
        cases hrot : st.ip_rotator with
        | none => simp [attemptCount, List.filter_cons, isAttemptEv]
        | some rot =>
          simp only [srcRotate_eq]
          simp [attemptCount, List.filter_cons, isAttemptEv]
      · simp only [hps, if_false, Bool.false_eq_true]
        have h2 := ih (i + 1) st true
        simp [attemptCount, List.filter_cons, isAttemptEv] at h2 ⊢
        omega

theorem sel_go_sleeps (env : Nat → SelAttempt) (r : Nat) :
    ∀ (i : Nat) (st : BMState) (les : Bool),
    sleepCount (selenium_get_go env st i r les).trace = 0 := by
  induction r with
  | zero =>
    intro i st les
    cases les with
    | false => rfl
    | true =>
      simp only [selenium_get_go]
      cases hu : (update_impl st false).outcome <;>
        simp [hu, update_impl, sleepCount_update]
  | succ r ih =>
    intro i st les
    simp only [selenium_get_go]
    cases henv : env i with
    | ok =>
      have h1 := sleepCount_update srcRotate st true
      cases hu : (update_impl st true).outcome <;>
        · simp only [hu]
          simp [sleepCount, update_impl, List.filter_cons, isSleepEv] at h1 ⊢
          exact h1
    | err ps =>
      by_cases hps : (ps == 429) = true
      · simp only [hps, if_true]
        cases hrot : st.ip_rotator with
        | none => rfl
        | some rot =>
          simp only [srcRotate_eq]
          rfl
      · simp only [hps, if_false, Bool.false_eq_true]
        have h2 := ih (i + 1) st true
        simp [sleepCount, List.filter_cons, isSleepEv] at h2 ⊢
        exact h2

/-- Reduction of selenium_get when the first attempt raises a selenium error
and the probe returns 429 while a rotator is configured: the no-argument
rotation call at scraper.py line 269 runs outside the lock and raises
TypeError, which propagates out of selenium_get. -/
theorem sel_429_first (env : Nat → SelAttempt) (st : BMState) (rot : RotatorState)
    (h1 : st.ip_rotator = some rot) (h2 : env 0 = SelAttempt.err 429)
    (h3 : 0 < st.max_retries) :
    (selenium_get env st).res = FetchRes.exn PyErr.typeError ∧
    (selenium_get env st).trace = [Ev.attempt 0, Ev.rotateCall] := by
  obtain ⟨r, hr⟩ : ∃ r, st.max_retries = r + 1 := ⟨st.max_retries - 1, by omega⟩
  simp only [selenium_get, hr, selenium_get_go, h2, h1, srcRotate_eq]
  exact ⟨rfl, rfl⟩

/-- C7 counterexample: with every attempt failing (network error) and
max_retries = 3, the complete event trace of requests_get is three attempts
directly followed by the locked record(False) — it contains no sleep event at
all, although the claim requires a 2^attempt-second backoff sleep after each
failed attempt. -/
theorem C7_no_backoff_cex :
    (requests_get cexEnvNet cexSt).trace
      = [Ev.attempt 0, Ev.attempt 1, Ev.attempt 2,
         Ev.acquire, Ev.recordHist false, Ev.release] ∧
    sleepCount (requests_get cexEnvNet cexSt).trace = 0 := by
  decide

/-- C7 (amended): each fetcher makes at most maxRetries attempts per request
and performs no backoff sleep between attempts (the source has none; the only
delay is the randomized post-success throttle); requests_get records false
into the outcome window exactly when maxRetries ≥ 1 attempts all fail, and
records true exactly when some attempt succeeds. -/
theorem C7_retry_accounting (env : Nat → ReqAttempt) (st : BMState)
    (h : 0 < st.fail_rate) :
    attemptCount (requests_get env st).trace ≤ st.max_retries ∧
    sleepCount (requests_get env st).trace = 0 ∧
    (Ev.recordHist false ∈ (requests_get env st).trace
      ↔ firstSuccessFrom env 0 st.max_retries = none ∧ 0 < st.max_retries) ∧
    (Ev.recordHist true ∈ (requests_get env st).trace
      ↔ (firstSuccessFrom env 0 st.max_retries).isSome = true) ∧
    (∀ (envS : Nat → SelAttempt) (st2 : BMState),
      attemptCount (selenium_get envS st2).trace ≤ st2.max_retries ∧
      sleepCount (selenium_get envS st2).trace = 0) := by
  refine ⟨?_, req_go_sleeps env st.max_retries 0 st none, ?_, ?_, ?_⟩
  · show attemptCount (requests_get_go env st 0 st.max_retries none).trace ≤ st.max_retries
    rw [req_go_attempts env st.max_retries 0 st none h]
    cases hfs : firstSuccessFrom env 0 st.max_retries with
    | none => exact Nat.le_refl _
    | some j => exact firstSuccessFrom_lt env 0 st.max_retries j hfs
  · have h2 := req_go_record_false env st.max_retries 0 st none h
    simpa using h2
  · exact req_go_record_true env st.max_retries 0 st none h
  · intro envS st2
    exact ⟨sel_go_attempts_le envS st2.max_retries 0 st2 false,
           sel_go_sleeps envS st2.max_retries 0 st2 false⟩

theorem C7_retry_accounting_witness :
    0 < cexSt.fail_rate ∧
    sleepCount (requests_get cexEnvNet cexSt).trace = 0 ∧
    attemptCount (requests_get cexEnvNet cexSt).trace ≤ cexSt.max_retries :=
  ⟨by decide, (C7_retry_accounting cexEnvNet cexSt (by decide)).2.1,
   (C7_retry_accounting cexEnvNet cexSt (by decide)).1⟩

/-- Selenium environment whose every attempt raises and whose probe sees 429. -/
def cexEnvSel : Nat → SelAttempt := fun _ => SelAttempt.err 429

/-- Fresh manager with a rotation config (max_retries = 3, window_size = 10). -/
def cexStR : BMState :=
  mkBrowserManager 3 10 5 (some { instance_id := "i", eni_id := "e" })

/-- C9 counterexample: a selenium_get run whose first attempt fails with a 429
probe invokes the rotation call, and that rotateCall event happens while the
lock is NOT held — refuting "every invocation of the external rotation call
happens inside one exclusive critical section". -/
theorem C9_unlocked_rotation_cex :
    Ev.rotateCall ∈ (selenium_get cexEnvSel cexStR).trace ∧
    rotateUnderLockB (selenium_get cexEnvSel cexStR).trace = false := by
  decide

/-- C9 (amended): every mutation of the shared window and the rotation call
made inside _update_request_history happen while the lock is held (the whole
body runs under `with self.lock`), but the rate-limit rotation call in
selenium_get (scraper.py line 269) is invoked without the lock, so a rotation
can run outside the critical section — and hence concurrently with one from
_update_request_history. -/
theorem C9_lock_discipline :
    (∀ (rc : RotatorState → Except PyErr RotatorState) (st : BMState) (b : Bool),
      rotateUnderLockB (update_request_history rc st b).trace = true) ∧
    (∀ (env : Nat → SelAttempt) (st : BMState) (rot : RotatorState),
      st.ip_rotator = some rot → env 0 = SelAttempt.err 429 → 0 < st.max_retries →
      Ev.rotateCall ∈ (selenium_get env st).trace ∧
      rotateUnderLockB (selenium_get env st).trace = false) := by
  constructor
  · intro rc st b
    rcases update_trace_eq rc st b with h | h <;> rw [h] <;> cases b <;> decide
  · intro env st rot h1 h2 h3
    rw [(sel_429_first env st rot h1 h2 h3).2]
    exact ⟨by decide, by decide⟩

theorem C9_lock_discipline_witness :
    cexStR.ip_rotator = some { rotation_limit := none, rotation_count := 0 } ∧
    rotateUnderLockB (update_request_history specRotateOk stThresh false).trace = true ∧
    rotateUnderLockB (selenium_get cexEnvSel cexStR).trace = false :=
  ⟨by decide,
   C9_lock_discipline.1 specRotateOk stThresh false,
   (C9_lock_discipline.2 cexEnvSel cexStR
      { rotation_limit := none, rotation_count := 0 } (by decide) rfl (by decide)).2⟩

/-- C10: every rotation call BrowserManager can reach passes no eni_id
argument, so rotate_elastic_ip raises TypeError before doing anything:
(a) the call as made (empty argument list) always yields TypeError for any
rotator state; (b) when _update_request_history reaches the rotation branch,
the method's outcome is the TypeError and the rotator state is unchanged (the
rotation never completes); (c) when selenium_get's rate-limit branch reaches
the rotation call, the TypeError propagates out of selenium_get. -/
theorem C10_rotation_always_type_error :
    (∀ (awsOk : Bool) (rot : RotatorState),
      rotate_elastic_ip rot [] awsOk = Except.error PyErr.typeError) ∧
    (∀ (st : BMState) (b : Bool) (rot : RotatorState),
      st.ip_rotator = some rot →
      st.fail_rate ≤ recentFailuresAfter st b →
      (update_impl st b).outcome = some PyErr.typeError ∧
      (update_impl st b).st.ip_rotator = some rot) ∧
    (∀ (env : Nat → SelAttempt) (st : BMState) (rot : RotatorState),
      st.ip_rotator = some rot → env 0 = SelAttempt.err 429 → 0 < st.max_retries →
      (selenium_get env st).res = FetchRes.exn PyErr.typeError) := by
  refine ⟨fun awsOk rot => rfl, ?_, ?_⟩
  · intro st b rot h1 h2
    simp only [update_impl, update_request_history]
    rw [if_pos h2, h1]
    dsimp only
    rw [srcRotate_eq]
    exact ⟨rfl, rfl⟩
  · intro env st rot h1 h2 h3
    exact (sel_429_first env st rot h1 h2 h3).1

theorem C10_rotation_always_type_error_witness :
    stThresh.fail_rate ≤ recentFailuresAfter stThresh false ∧
    (update_impl stThresh false).outcome = some PyErr.typeError ∧
    (selenium_get cexEnvSel cexStR).res = FetchRes.exn PyErr.typeError :=
  ⟨by decide,
   (C10_rotation_always_type_error.2.1 stThresh false
      { rotation_limit := none, rotation_count := 0 } (by decide) (by decide)).1,
   C10_rotation_always_type_error.2.2 cexEnvSel cexStR
      { rotation_limit := none, rotation_count := 0 } (by decide) rfl (by decide)⟩

/-- Per-case classification (scrape_canlii.py lines 14-18). -/
inductive CaseProcessResult where
  | already_exists
  | success
  | rate_limited
  | no_content
  deriving DecidableEq

/-- Dispatcher-visible state of scrape_law_cases (scrape_canlii.py lines
104-228): the pending url queue, the failed/missing accumulators, the results
list, and the state σ of the shared window-check collaborator. -/
structure DispatchState (σ : Type) where
  remaining_urls : List String
  failed_cases : List String
  missing_cases : List String
  results : List CaseProcessResult
  checkSt : σ
  deriving DecidableEq

/-- The per-item classification loop after the batch barrier (scrape_canlii.py
lines 210-221): each item sets success = True unless RATE_LIMITED, appends to
failed_cases / missing_cases / results accordingly, and appends the result of
the window check to should_rotate.  `check` abstracts
BrowserManager._update_window_and_check_if_rotate, which is called at line 221
but not defined under src/ — modelled from the spec (sections 4.1-4.2) as a
state transformer returning whether rotation fired. -/
def processResults {σ : Type} (check : σ → Bool → σ × Bool) :
    List (String × CaseProcessResult) → DispatchState σ → DispatchState σ × List Bool
  | [], st => (st, [])
  | (case_url, case_result) :: rest, st =>
    let st1 :=
      match case_result with
      | .rate_limited => { st with failed_cases := st.failed_cases ++ [case_url] }
      | .no_content => { st with missing_cases := st.missing_cases ++ [case_url] }
      | .success => { st with results := st.results ++ [case_result] }
      | .already_exists => st
    let success : Bool := case_result != CaseProcessResult.rate_limited
    let cb := check st1.checkSt success
    let stRest := processResults check rest { st1 with checkSt := cb.1 }
    (stRest.1, cb.2 :: stRest.2)

/-- Modelled from the spec: BrowserManager.rotate_ip (called at scrape_canlii.py
line 224) is not defined under src/; per spec section 4.2 a successful rotation
returns normally, so the requeue at lines 226-228 executes.  This definition is
the post-barrier block of scrape_canlii.py lines 209-228: if any window check
returned true, the whole batch is pushed back onto the front of the pending
queue and the batch urls are removed from failed_cases and missing_cases. -/
def batchAfterBarrier {σ : Type} (check : σ → Bool → σ × Bool)
    (batch : List (String × CaseProcessResult)) (st : DispatchState σ) :
    DispatchState σ :=
  let batch_urls := batch.map Prod.fst
  let pr := processResults check batch st
  if pr.2.any id then
    { pr.1 with
      remaining_urls := batch_urls ++ pr.1.remaining_urls,
      failed_cases := pr.1.failed_cases.filter fun u => !(batch_urls.contains u),
      missing_cases := pr.1.missing_cases.filter fun u => !(batch_urls.contains u) }
  else pr.1

/-- One iteration of the while-loop at scrape_canlii.py lines 184-228: take the
next batch of batch_size = 5 urls off the queue, run one worker per url (the
workers' classifications are given by `outcomes`, matching the result_container
that the threads fill in), then run the post-barrier block. -/
def dispatchCycle {σ : Type} (check : σ → Bool → σ × Bool)
    (outcomes : String → CaseProcessResult) (st : DispatchState σ) :
    DispatchState σ :=
  let batch_urls := st.remaining_urls.take 5
  batchAfterBarrier check (batch_urls.map fun u => (u, outcomes u))
    { st with remaining_urls := st.remaining_urls.drop 5 }

theorem processResults_remaining {σ : Type} (check : σ → Bool → σ × Bool) :
    ∀ (batch : List (String × CaseProcessResult)) (st0 : DispatchState σ),
    (processResults check batch st0).1.remaining_urls = st0.remaining_urls := by
  intro batch
  induction batch with
  | nil => intro st0; rfl
  | cons p rest ih =>
    intro st0
    obtain ⟨cu, cr⟩ := p
    cases cr <;> simp [processResults, ih]

theorem batchAfterBarrier_rotate {σ : Type} (check : σ → Bool → σ × Bool)
    (batch : List (String × CaseProcessResult)) (st0 : DispatchState σ)
    (h : (processResults check batch st0).2.any id = true) :
    (batchAfterBarrier check batch st0).remaining_urls
      = batch.map Prod.fst ++ (processResults check batch st0).1.remaining_urls ∧
    (batchAfterBarrier check batch st0).failed_cases
      = (processResults check batch st0).1.failed_cases.filter
          (fun u => !((batch.map Prod.fst).contains u)) ∧
    (batchAfterBarrier check batch st0).missing_cases
      = (processResults check batch st0).1.missing_cases.filter
          (fun u => !((batch.map Prod.fst).contains u)) := by
  simp only [batchAfterBarrier, h, if_true]
  exact ⟨by simp, by simp, by simp⟩

/-- C5: if any post-barrier window check of a batch reports rotation, the
entire batch — including items that individually succeeded — is pushed back
onto the front of the pending queue (so the queue equals the original queue
again), the batch's classifications from this pass are withdrawn from
failed_cases and missing_cases, and the next dispatch cycle's batch (the first
5 of the queue) contains every url of the rotated batch. -/
theorem C5_batch_requeue {σ : Type} (check : σ → Bool → σ × Bool)
    (outcomes : String → CaseProcessResult) (st : DispatchState σ)
    (hrot : (processResults check
        ((st.remaining_urls.take 5).map fun u => (u, outcomes u))
        { st with remaining_urls := st.remaining_urls.drop 5 }).2.any id = true) :
    (dispatchCycle check outcomes st).remaining_urls = st.remaining_urls ∧
    (∀ u ∈ st.remaining_urls.take 5,
      u ∉ (dispatchCycle check outcomes st).failed_cases ∧
      u ∉ (dispatchCycle check outcomes st).missing_cases ∧
      u ∈ (dispatchCycle check outcomes st).remaining_urls.take 5) := by
  have hmap : (((st.remaining_urls.take 5).map fun u => (u, outcomes u)).map Prod.fst)
      = st.remaining_urls.take 5 := by
    rw [List.map_map]
    simp [Function.comp_def]
  have heq : dispatchCycle check outcomes st
      = batchAfterBarrier check
          ((st.remaining_urls.take 5).map fun u => (u, outcomes u))
          { st with remaining_urls := st.remaining_urls.drop 5 } := rfl
  obtain ⟨h1, h2, h3⟩ := batchAfterBarrier_rotate check
    ((st.remaining_urls.take 5).map fun u => (u, outcomes u))
    { st with remaining_urls := st.remaining_urls.drop 5 } hrot
  have hrem := processResults_remaining check
    ((st.remaining_urls.take 5).map fun u => (u, outcomes u))
    { st with remaining_urls := st.remaining_urls.drop 5 }
  have hmain : (dispatchCycle check outcomes st).remaining_urls = st.remaining_urls := by
    rw [heq, h1, hmap, hrem]
    exact List.take_append_drop 5 st.remaining_urls
  refine ⟨hmain, ?_⟩
  intro u hu
  have hcontains : (st.remaining_urls.take 5).contains u = true :=
    List.elem_eq_true_of_mem hu
  refine ⟨?_, ?_, ?_⟩
  · rw [heq, h2, hmap]
    intro hmem
    have hp := List.of_mem_filter hmem
    rw [hcontains] at hp
    simp at hp
  · rw [heq, h3, hmap]
    intro hmem
    have hp := List.of_mem_filter hmem
    rw [hcontains] at hp
    simp at hp
  · rw [hmain]
    exact hu

def c5Check : Nat → Bool → Nat × Bool := fun n b => (n + 1, !b)

def c5Out : String → CaseProcessResult := fun u =>
  if u = "C" then CaseProcessResult.rate_limited else CaseProcessResult.success

def c5St : DispatchState Nat :=
  { remaining_urls := ["A", "B", "C"], failed_cases := [], missing_cases := [],
    results := [], checkSt := 0 }

theorem C5_batch_requeue_witness :
    (processResults c5Check ((c5St.remaining_urls.take 5).map fun u => (u, c5Out u))
      { c5St with remaining_urls := c5St.remaining_urls.drop 5 }).2.any id = true ∧
    (dispatchCycle c5Check c5Out c5St).remaining_urls = ["A", "B", "C"] :=
  ⟨by decide, (C5_batch_requeue c5Check c5Out c5St (by decide)).1⟩

/-- C8: the claim's scenario routes the rotation limit through BrowserManager,
but BrowserManager.__init__ (scraper.py lines 95-100) constructs IPRotator
without forwarding rotation_config.rotation_limit, so the rotator's limit is
None and the guard at rotate_ip.py line 75 is falsy: after one completed
rotation a second rotation request does NOT raise the rotation-limit error but
rotates again (conjuncts 1 and 3; conjunct 4: via BrowserManager the call
raises TypeError even before the limit check, since no eni_id is passed).  Conjunct 2 shows the guard itself is correct when IPRotator is
constructed directly with rotation_limit = 1, confirming the claim is right
about the intended behaviour and the wiring is the slip. -/
theorem C8_rotation_limit_dropped :
    (mkBrowserManager 3 10 1
        (some { instance_id := "i", eni_id := "e", rotation_limit := 1 })).ip_rotator
      = some { rotation_limit := none, rotation_count := 0 } ∧
    rotate_elastic_ip { rotation_limit := some 1, rotation_count := 1 } ["e"] true
      = Except.error PyErr.rotationLimit ∧
    rotate_elastic_ip { rotation_limit := none, rotation_count := 1 } ["e"] true
      = Except.ok ({ rotation_limit := none, rotation_count := 2 }, "e") ∧
    srcRotate { rotation_limit := none, rotation_count := 1 }
      = Except.error PyErr.typeError :=
  ⟨rfl, rfl, rfl, rfl⟩

end CanLII
